import Mathlib

/-!
Verification development for the order-fulfillment saga design documented in
this repository (COMMUNICATION_PATTERNS.md, DATABASE_SCHEMAS.md, DATA_FLOWS.md)
and for the user service implementation
(services/user-service/src/services/user.service.ts and friends).

Timestamps and durations are modelled as natural numbers (seconds); database
rows as Lean structures; each stateful operation is a pure function from the
old state to the new state together with its returned value.
-/

namespace Saga

/-! ## Inventory data model

Embeds the `inventory` and `inventory_reservations` tables of
DATABASE_SCHEMAS.md §6 (Inventory Service Database): an inventory row keeps
`quantity_available` and `quantity_reserved` per product; a reservation row
references an order, carries a quantity per product, a status in
{active, released, fulfilled} and an absolute `expires_at` timestamp. -/

structure StockItem where
  productId : String
  quantity_available : Nat
  quantity_reserved : Nat
deriving DecidableEq

structure ReservationItem where
  productId : String
  quantity : Nat
deriving DecidableEq

inductive ResStatus where
  | active
  | released
  | fulfilled
deriving DecidableEq

structure Reservation where
  order_id : String
  items : List ReservationItem
  status : ResStatus
  expires_at : Nat
deriving DecidableEq

structure InventoryState where
  stock : List StockItem
  reservations : List Reservation
deriving DecidableEq

inductive InvErr where
  | InsufficientStock
  | ReservationExpired
deriving DecidableEq

/-- Quantity available for a product: the first inventory row whose
`productId` matches (the schema has a UNIQUE key on the product columns),
`0` when no row exists. -/
def availableOf : List StockItem → String → Nat
  | [], _ => 0
  | s :: rest, pid => if s.productId = pid then s.quantity_available else availableOf rest pid

/-- Move `q` units of `pid` from available to reserved
(the reservation decrement of `reserve`). -/
def decStock : List StockItem → String → Nat → List StockItem
  | [], _, _ => []
  | s :: rest, pid, q =>
    (if s.productId = pid then
      { s with quantity_available := s.quantity_available - q,
               quantity_reserved := s.quantity_reserved + q }
     else s) :: decStock rest pid q

/-- Move `q` units of `pid` back from reserved to available
(the restoring update of `release`). -/
def incStock : List StockItem → String → Nat → List StockItem
  | [], _, _ => []
  | s :: rest, pid, q =>
    (if s.productId = pid then
      { s with quantity_available := s.quantity_available + q,
               quantity_reserved := s.quantity_reserved - q }
     else s) :: incStock rest pid q

/-- Drop `q` units of `pid` from reserved for good
(the permanent decrement of `finalize`). -/
def commitStock : List StockItem → String → Nat → List StockItem
  | [], _, _ => []
  | s :: rest, pid, q =>
    (if s.productId = pid then
      { s with quantity_reserved := s.quantity_reserved - q }
     else s) :: commitStock rest pid q

/-- The per-item stock check of `reserve`: every requested item is covered by
the available quantity of its product. -/
def canReserve (stock : List StockItem) (items : List ReservationItem) : Bool :=
  items.all fun it => it.quantity ≤ availableOf stock it.productId

/-- Default reservation time-to-live: 15 minutes
(DATA_FLOWS.md: "Inventory reservations expire in 15 minutes"). -/
def defaultTtlSeconds : Nat := 15 * 60

/-- Whether a reservation row is the still-active reservation of `oid`. -/
def ResStatus.isActive : ResStatus → Bool
  | .active => true
  | _ => false

def resMatch (oid : String) (r : Reservation) : Bool :=
  r.order_id == oid && r.status.isActive

/-- Set every active reservation of `oid` to status `st`. -/
def setStatusAll (rs : List Reservation) (oid : String) (st : ResStatus) : List Reservation :=
  rs.map fun r => if resMatch oid r then { r with status := st } else r

/-- Modelled from the spec: `reserve(orderId, items, ttl)` of §4.3 Inventory
Reservation Manager. The repository declares the endpoint
`POST /api/inventory/reserve`, the `inventory`/`inventory_reservations`
schemas and the caller `InventoryService.onOrderCreated`, but no
implementation body is under src/. Per the spec it atomically checks the
available quantity of every item and, only if every item can be satisfied,
decrements available stock and creates one Reservation row for the order with
`expiry = now + ttl`; otherwise it returns `InsufficientStock` and changes
nothing. -/
def reserve (st : InventoryState) (oid : String) (items : List ReservationItem)
    (ttl now : Nat) : InventoryState × Except InvErr Reservation :=
  if canReserve st.stock items then
    let r : Reservation := { order_id := oid, items := items, status := .active,
                             expires_at := now + ttl }
    ({ stock := items.foldl (fun acc it => decStock acc it.productId it.quantity) st.stock,
       reservations := r :: st.reservations }, .ok r)
  else (st, .error .InsufficientStock)

/-- Modelled from the spec: `release(orderId)` of §4.3 — returns the reserved
quantity of every active reservation of the order to available stock and marks
the reservation `released`; releasing an already-released or already-expired
reservation is a no-op, not an error (no implementation body is under src/,
only the endpoint `POST /api/inventory/release`, the schemas and the caller
`InventoryService.onOrderFailed`). -/
def release (st : InventoryState) (oid : String) : InventoryState :=
  { stock := (st.reservations.filter (resMatch oid)).foldl
      (fun acc r => r.items.foldl (fun a it => incStock a it.productId it.quantity) acc)
      st.stock,
    reservations := setStatusAll st.reservations oid .released }

/-- Modelled from the spec: `finalize(orderId)` of §4.3 — converts an active,
non-expired reservation into a permanent stock decrement and marks it
`fulfilled`; fails with `ReservationExpired` after expiry; calling it again
once no active reservation remains is a no-op (no implementation body is
under src/). -/
def finalize (st : InventoryState) (oid : String) (now : Nat) :
    InventoryState × Except InvErr Unit :=
  match st.reservations.find? (resMatch oid) with
  | none => (st, .ok ())
  | some r =>
    if r.expires_at < now then (st, .error .ReservationExpired)
    else
      ({ stock := (st.reservations.filter (resMatch oid)).foldl
           (fun acc x => x.items.foldl (fun a it => commitStock a it.productId it.quantity) acc)
           st.stock,
         reservations := setStatusAll st.reservations oid .fulfilled }, .ok ())

/-! ## Payment records

Embeds the `payments` table of DATABASE_SCHEMAS.md §5 (Payment Service
Database): a row carries an `idempotency_key` (UNIQUE), the `order_id`, the
amount and a status in {pending, processing, success, failed, refunded}. -/

inductive PayStatus where
  | pending
  | processing
  | success
  | failed
  | refunded
deriving DecidableEq

structure Payment where
  idempotency_key : String
  order_id : String
  amount : Nat
  status : PayStatus
deriving DecidableEq

/-- `this.db.findByIdempotencyKey(idempotencyKey)` of
`PaymentService.processPayment` (COMMUNICATION_PATTERNS.md §5, Idempotency Key
Pattern): the stored payment whose key matches, if any. -/
def findByIdempotencyKey : List Payment → String → Option Payment
  | [], _ => none
  | p :: rest, key =>
    if p.idempotency_key = key then some p else findByIdempotencyKey rest key

/-- `this.performPayment(paymentData)` followed by
`payment.idempotency_key = idempotencyKey`: the successfully charged payment
record carrying the key. -/
def performPayment (oid : String) (amount : Nat) (key : String) : Payment :=
  { idempotency_key := key, order_id := oid, amount := amount, status := .success }

/-- `PaymentService.processPayment(paymentData, idempotencyKey)`
(COMMUNICATION_PATTERNS.md §5): if a payment with this key is already stored,
return the cached result without charging; otherwise perform the payment, save
it and return it. `charges` counts the calls to the external gateway
(`performPayment`). -/
def processPayment (db : List Payment) (oid : String) (amount : Nat) (key : String)
    (charges : Nat) : List Payment × Payment × Nat :=
  match findByIdempotencyKey db key with
  | some p => (db, p, charges)
  | none =>
    let p := performPayment oid amount key
    (db ++ [p], p, charges + 1)

/-- Number of stored payment records with this idempotency key and status
`success`. -/
def countSucceededForKey (db : List Payment) (key : String) : Nat :=
  (db.filter fun p =>
    decide (p.idempotency_key = key ∧ p.status = PayStatus.success)).length

/-- A sequence of payment commands `(orderId, amount, idempotencyKey)` run
against an initially empty payment database, threading the stored records and
the gateway charge count. -/
def runPayments (cmds : List (String × Nat × String)) : List Payment × Nat :=
  cmds.foldl
    (fun acc c =>
      let r := processPayment acc.1 c.1 c.2.1 c.2.2 acc.2
      (r.1, r.2.2))
    ([], 0)

/-! ## Event deduplication

Embeds `EventConsumer.handleEvent` of COMMUNICATION_PATTERNS.md §5 (Event
Deduplication): a consumer keeps the set of processed event ids; a redelivered
id is skipped, a fresh one is processed and then marked. The domain side
effect `processEvent` is abstracted as a function on the consumer's effect
log. -/

structure ConsumerState where
  processedEvents : List String
  effects : List String
deriving DecidableEq

/-- `EventConsumer.handleEvent(event)`: skip when `event.event_id` was already
processed, otherwise run `processEvent` and mark the id processed. -/
def handleEvent (process : List String → List String) (st : ConsumerState)
    (eventId : String) : ConsumerState :=
  if eventId ∈ st.processedEvents then st
  else { processedEvents := st.processedEvents ++ [eventId],
         effects := process st.effects }

/-! ## Saga coordinators

Embeds the payment-failure flow of COMMUNICATION_PATTERNS.md §2
(Asynchronous Communication / Saga Pattern): `PaymentService.onOrderCreated`
publishes `payment.failed` when the charge throws (saving no payment record),
`OrderService.onPaymentFailed` updates the order status to `failed` and
publishes `order.failed`, and `InventoryService.onOrderFailed` releases the
order's inventory and publishes `inventory.released`. -/

structure SagaState where
  orderStatus : String
  inv : InventoryState
  payments : List Payment
  published : List String
deriving DecidableEq

/-- `eventBus.publish({event_type, ...})`: append the event type to the
published log. -/
def publishEvt (s : SagaState) (evtType : String) : SagaState :=
  { s with published := s.published ++ [evtType] }

/-- `this.updateOrderStatus(order_id, status)`. -/
def updateOrderStatus (s : SagaState) (status : String) : SagaState :=
  { s with orderStatus := status }

/-- `PaymentService.onOrderCreated` when `processPayment` throws: publish
`payment.failed`; no payment record is saved. -/
def paymentOnOrderCreatedDeclined (s : SagaState) : SagaState :=
  publishEvt s "payment.failed"

/-- `OrderService.onPaymentFailed`: set the order status to `failed` and
publish `order.failed`. -/
def orderOnPaymentFailed (s : SagaState) : SagaState :=
  publishEvt (updateOrderStatus s "failed") "order.failed"

/-- `InventoryService.onOrderFailed`: `releaseInventory(order_id)` then
publish `inventory.released`. -/
def inventoryOnOrderFailed (s : SagaState) (oid : String) : SagaState :=
  publishEvt { s with inv := release s.inv oid } "inventory.released"

/-- The documented payment-failure flow for one order: the declined charge
publishes `payment.failed`, the order coordinator reacts to it, the inventory
coordinator reacts to the resulting `order.failed`. -/
def paymentFailedFlow (s : SagaState) (oid : String) : SagaState :=
  inventoryOnOrderFailed (orderOnPaymentFailed (paymentOnOrderCreatedDeclined s)) oid

/-! ## Retry with backoff

Embeds `retryWithBackoff(fn, maxRetries = 3)` of COMMUNICATION_PATTERNS.md
(Retry Strategy): attempts `fn(i)` for `i = 0, 1, ...`; on failure of the last
attempt (`i === maxRetries - 1`) the error is rethrown, otherwise it sleeps
`Math.min(1000 * Math.pow(2, i), 10000)` milliseconds and retries. -/

/-- `Math.min(1000 * Math.pow(2, i), 10000)`: the backoff delay before retry
`i + 1`, in milliseconds. -/
def backoffDelay (i : Nat) : Nat := min (1000 * 2 ^ i) 10000

/-- The default `maxRetries` of `retryWithBackoff`. -/
def maxRetriesDefault : Nat := 3

/-- The loop of `retryWithBackoff`, recursing on the remaining attempts
(`remaining = maxRetries - i`; `remaining = 1` is the final attempt, whose
error is rethrown). Returns the overall outcome (`none` only when the loop
body never runs, i.e. `maxRetries = 0`) and the list of delays slept. -/
def retryFrom (fn : Nat → Except String String) (i : Nat) :
    Nat → Option (Except String String) × List Nat
  | 0 => (none, [])
  | 1 =>
    match fn i with
    | .ok v => (some (.ok v), [])
    | .error e => (some (.error e), [])
  | Nat.succ (Nat.succ rem) =>
    match fn i with
    | .ok v => (some (.ok v), [])
    | .error _ =>
      let r := retryFrom fn (i + 1) (Nat.succ rem)
      (r.1, backoffDelay i :: r.2)

/-- `retryWithBackoff(fn, maxRetries)`. -/
def retryWithBackoff (fn : Nat → Except String String) (maxRetries : Nat) :
    Option (Except String String) × List Nat :=
  retryFrom fn 0 maxRetries

/-- A function whose every attempt fails with error `e`. -/
def failFn (e : String) : Nat → Except String String := fun _ => .error e

/-! ## Orders schema and cancellation

Embeds the `orders` table of DATABASE_SCHEMAS.md §4 (Order Service Database)
and the business rules of DATA_FLOWS.md §9 (Order Cancellation Flow): a
cancellation is accepted while the status is `pending` or `confirmed` and
rejected while it is `shipped` or `delivered`. -/

/-- Column names of `CREATE TABLE orders` (DATABASE_SCHEMAS.md §4). -/
def ordersColumns : List String :=
  ["id", "order_number", "user_id", "status", "currency", "subtotal",
   "discount", "tax", "shipping_cost", "total", "payment_status", "payment_id",
   "shipping_address", "billing_address", "notes", "created_at", "updated_at",
   "confirmed_at", "shipped_at", "delivered_at", "cancelled_at"]

/-- Status values of the `orders.status` column (comment in the schema):
pending, confirmed, processing, shipped, delivered, cancelled. -/
def orderStatuses : List String :=
  ["pending", "confirmed", "processing", "shipped", "delivered", "cancelled"]

structure COrder where
  status : String
  cancelled_at : Option Nat
deriving DecidableEq

/-- DATA_FLOWS.md §9, Business Rules: "Can cancel if order status is
'pending' or 'confirmed'". -/
def canCancel (status : String) : Bool :=
  status == "pending" || status == "confirmed"

/-- The cancellation request handler: validate the cancellation against the
business rules; when accepted, update the order to `cancelled` and stamp
`cancelled_at`; otherwise reject, leaving the order unchanged. The returned
Bool is whether the cancellation was accepted. -/
def cancelOrder (o : COrder) (now : Nat) : COrder × Bool :=
  if canCancel o.status then
    ({ status := "cancelled", cancelled_at := some now }, true)
  else (o, false)

end Saga

namespace UserSvc

/-! ## User service

Embeds `services/user-service`: the `User` and `UserResponse` shapes of
`src/types/user.types.ts`, `UserRepository.findByEmail`, bcrypt hashing and
comparison (`AuthUtils.hashPassword` / `comparePassword`, modelled as a
deterministic tag), JWT issuance (`AuthUtils.generateAccessToken` /
`generateRefreshToken`, modelled as deterministic strings) and
`UserService.login` / `toUserResponse` of `src/services/user.service.ts`.
Dates are natural numbers. -/

structure UserR where
  id : String
  email : String
  password_hash : String
  first_name : Option String
  last_name : Option String
  phone : Option String
  role : String
  is_email_verified : Bool
  is_active : Bool
  created_at : Nat
  updated_at : Nat
  last_login_at : Option Nat
deriving DecidableEq

/-- The `UserResponse` interface of `user.types.ts`: exactly the fields
id, email, first_name, last_name, phone, role, is_email_verified and
created_at — no `password_hash`, `is_active`, `updated_at` or
`last_login_at`. -/
structure UserResponse where
  id : String
  email : String
  first_name : Option String
  last_name : Option String
  phone : Option String
  role : String
  is_email_verified : Bool
  created_at : Nat
deriving DecidableEq

structure LoginResponse where
  user : UserResponse
  token : String
  refreshToken : String
deriving DecidableEq

/-- `UserService.toUserResponse(user)`: project the stored user onto the
response fields, dropping the sensitive ones. -/
def toUserResponse (u : UserR) : UserResponse :=
  { id := u.id, email := u.email, first_name := u.first_name,
    last_name := u.last_name, phone := u.phone, role := u.role,
    is_email_verified := u.is_email_verified, created_at := u.created_at }

/-- `AuthUtils.hashPassword` (bcrypt), modelled as a deterministic injective
tagging of the password. -/
def hashPassword (password : String) : String := "bcrypt$" ++ password

/-- `AuthUtils.comparePassword(password, hashedPassword)` (bcrypt compare):
true exactly when the hash of the candidate equals the stored hash. -/
def comparePassword (password hashed : String) : Bool :=
  hashPassword password == hashed

/-- `AuthUtils.generateAccessToken` (jwt.sign), modelled deterministically. -/
def generateAccessToken (userId email role : String) : String :=
  "jwt-access:" ++ userId ++ ":" ++ email ++ ":" ++ role

/-- `AuthUtils.generateRefreshToken` (jwt.sign), modelled deterministically. -/
def generateRefreshToken (userId : String) : String :=
  "jwt-refresh:" ++ userId

/-- `UserRepository.findByEmail(email)`. -/
def findByEmail : List UserR → String → Option UserR
  | [], _ => none
  | u :: rest, email =>
    if u.email = email then some u else findByEmail rest email

/-- `UserService.login(data)` after input validation, returning the value it
resolves with or the message of the error it throws: unknown email →
"Invalid email or password"; deactivated account → "Account is deactivated";
wrong password → "Invalid email or password"; otherwise the tokens and the
`toUserResponse` projection. (The `updateLastLogin` timestamp write on the
success path does not affect the returned value and is not modelled.) -/
def login (db : List UserR) (email password : String) :
    Except String LoginResponse :=
  match findByEmail db email with
  | none => .error "Invalid email or password"
  | some u =>
    if u.is_active = false then .error "Account is deactivated"
    else if comparePassword password u.password_hash = false then
      .error "Invalid email or password"
    else
      .ok { user := toUserResponse u,
            token := generateAccessToken u.id u.email u.role,
            refreshToken := generateRefreshToken u.id }

/-- `UserService.getProfile(userId)`-style lookup by id, returning the
`toUserResponse` projection. -/
def findById : List UserR → String → Option UserR
  | [], _ => none
  | u :: rest, uid => if u.id = uid then some u else findById rest uid

def getProfile (db : List UserR) (userId : String) : Except String UserResponse :=
  match findById db userId with
  | none => .error "User not found"
  | some u => .ok (toUserResponse u)

end UserSvc

namespace Saga

/-! ## Concrete states used by witnesses and counterexamples -/

/-- Stock of 5 units of SKU-A and 3 of SKU-B, no reservations. -/
def invSt0 : InventoryState :=
  { stock := [{ productId := "SKU-A", quantity_available := 5, quantity_reserved := 0 },
              { productId := "SKU-B", quantity_available := 3, quantity_reserved := 0 }],
    reservations := [] }

def items0 : List ReservationItem :=
  [{ productId := "SKU-A", quantity := 2 }, { productId := "SKU-B", quantity := 1 }]

/-- A saga state for order O5 whose inventory is reserved and whose payment
was declined (no payment record). -/
def sagaSt0 : SagaState :=
  { orderStatus := "inventory_reserved",
    inv := { stock := [{ productId := "SKU-A", quantity_available := 3, quantity_reserved := 2 }],
             reservations := [{ order_id := "O5",
                                items := [{ productId := "SKU-A", quantity := 2 }],
                                status := .active, expires_at := 900 }] },
    payments := [],
    published := ["order.created", "inventory.reserved"] }

end Saga

namespace UserSvc

/-- A deactivated registered user. -/
def aliceInactive : UserR :=
  { id := "u1", email := "alice@example.com",
    password_hash := hashPassword "secret123", first_name := some "Alice",
    last_name := none, phone := none, role := "customer",
    is_email_verified := true, is_active := false, created_at := 0,
    updated_at := 0, last_login_at := none }

/-- An active registered user. -/
def bobActive : UserR :=
  { id := "u2", email := "bob@example.com",
    password_hash := hashPassword "hunter2xx", first_name := some "Bob",
    last_name := none, phone := none, role := "customer",
    is_email_verified := true, is_active := true, created_at := 0,
    updated_at := 0, last_login_at := none }

end UserSvc

namespace Saga

/-! ## Reservation lemmas -/

theorem resMatch_status_update (oid : String) (st : ResStatus) (r : Reservation)
    (h : st.isActive = false) :
    resMatch oid (if resMatch oid r then { r with status := st } else r) = false := by
  by_cases hr : resMatch oid r
  · rw [if_pos hr]
    simp [resMatch, h]
  · rw [if_neg hr]
    simpa using hr

theorem filter_setStatusAll (rs : List Reservation) (oid : String) (st : ResStatus)
    (h : st.isActive = false) :
    (setStatusAll rs oid st).filter (resMatch oid) = [] := by
  induction rs with
  | nil => rfl
  | cons r rest ih =>
    simp only [setStatusAll, List.map_cons, List.filter_cons] at *
    rw [resMatch_status_update oid st r h]
    simpa using ih

theorem find?_setStatusAll (rs : List Reservation) (oid : String) (st : ResStatus)
    (h : st.isActive = false) :
    (setStatusAll rs oid st).find? (resMatch oid) = none := by
  induction rs with
  | nil => rfl
  | cons r rest ih =>
    simp only [setStatusAll, List.map_cons, List.find?_cons] at *
    rw [resMatch_status_update oid st r h]
    exact ih

theorem setStatusAll_setStatusAll (rs : List Reservation) (oid : String)
    (st st' : ResStatus) (h : st.isActive = false) :
    setStatusAll (setStatusAll rs oid st) oid st' = setStatusAll rs oid st := by
  induction rs with
  | nil => rfl
  | cons r rest ih =>
    simp only [setStatusAll, List.map_cons] at *
    rw [ih]
    have hm := resMatch_status_update oid st r h
    rw [hm]
    simp

/-- C5 — For every order, calling `release` a second time — including on an
already-released or already-expired reservation — is a no-op (release always
succeeds, returning the state unchanged), and calling `finalize` a second time
is a no-op: the stock counters and reservation state after the second call
equal those after the first call. -/
theorem release_finalize_idempotent (st : InventoryState) (oid : String) (now : Nat) :
    release (release st oid) oid = release st oid ∧
    (finalize (finalize st oid now).1 oid now).1 = (finalize st oid now).1 := by
  constructor
  · show release (release st oid) oid = release st oid
    have hf := filter_setStatusAll st.reservations oid .released rfl
    have hs := setStatusAll_setStatusAll st.reservations oid .released .released rfl
    simp [release, hf, hs]
  · cases hfind : st.reservations.find? (resMatch oid) with
    | none => simp [finalize, hfind]
    | some r =>
      by_cases hexp : r.expires_at < now
      · simp [finalize, hfind, hexp]
      · have hn := find?_setStatusAll st.reservations oid .fulfilled rfl
        simp [finalize, hfind, hexp, hn]

/-! ## Stock-decrement lemmas for `reserve` -/

theorem availableOf_decStock_ne (stock : List StockItem) (pid p : String) (q : Nat)
    (h : p ≠ pid) :
    availableOf (decStock stock pid q) p = availableOf stock p := by
  induction stock with
  | nil => rfl
  | cons s rest ih =>
    simp only [decStock, availableOf]
    by_cases hsp : s.productId = pid
    · simp [hsp, ih, Ne.symm h]
    · simp [hsp, ih]

theorem availableOf_decStock_self (stock : List StockItem) (pid : String) (q : Nat) :
    availableOf (decStock stock pid q) pid = availableOf stock pid - q := by
  induction stock with
  | nil => simp [decStock, availableOf]
  | cons s rest ih =>
    simp only [decStock, availableOf]
    by_cases hsp : s.productId = pid
    · simp [hsp]
    · simp [hsp, ih]

/-- Folding the reservation decrement over items that do not mention `pid`
leaves the availability of `pid` unchanged. -/
theorem availableOf_foldl_notmem (items : List ReservationItem) (stock : List StockItem)
    (pid : String) (h : pid ∉ items.map ReservationItem.productId) :
    availableOf
      (items.foldl (fun acc it => decStock acc it.productId it.quantity) stock) pid =
    availableOf stock pid := by
  induction items generalizing stock with
  | nil => rfl
  | cons it rest ih =>
    simp only [List.map_cons, List.mem_cons, not_or] at h
    simp only [List.foldl_cons]
    rw [ih _ h.2, availableOf_decStock_ne _ _ _ _ h.1]

/-- After the decrement pass of `reserve`, the availability of every requested
product has dropped by exactly the requested quantity. -/
theorem availableOf_foldl_dec (items : List ReservationItem) (stock : List StockItem)
    (hnd : (items.map ReservationItem.productId).Nodup)
    (hcan : ∀ it ∈ items, it.quantity ≤ availableOf stock it.productId) :
    ∀ it ∈ items,
      availableOf
        (items.foldl (fun acc it => decStock acc it.productId it.quantity) stock)
        it.productId + it.quantity =
      availableOf stock it.productId := by
  induction items generalizing stock with
  | nil => intro it hit; cases hit
  | cons hd rest ih =>
    simp only [List.map_cons, List.nodup_cons] at hnd
    intro it hit
    simp only [List.foldl_cons]
    rcases List.mem_cons.mp hit with rfl | hmem
    · rw [availableOf_foldl_notmem rest _ it.productId hnd.1,
          availableOf_decStock_self]
      exact Nat.sub_add_cancel (hcan it (List.mem_cons_self it rest))
    · have hne : it.productId ≠ hd.productId := by
        intro he
        exact hnd.1 (he ▸ List.mem_map_of_mem ReservationItem.productId hmem)
      have hcan' : ∀ x ∈ rest,
          x.quantity ≤ availableOf (decStock stock hd.productId hd.quantity) x.productId := by
        intro x hx
        by_cases hxp : x.productId = hd.productId
        · rw [hxp, availableOf_decStock_self]
          -- two distinct elements of rest and hd share no productId only when
          -- x.productId ≠ hd.productId; this branch is impossible
          exact absurd (hxp ▸ List.mem_map_of_mem ReservationItem.productId hx) hnd.1
        · rw [availableOf_decStock_ne _ _ _ _ hxp]
          exact hcan x (List.mem_cons_of_mem hd hx)
      have := ih (decStock stock hd.productId hd.quantity) hnd.2 hcan' it hmem
      rw [this, availableOf_decStock_ne _ _ _ _ hne]

/-- C1 — For every reservation request: if every requested item is covered by
the available stock, `reserve` succeeds, returns a Reservation with
`expiry = now + ttl` that is appended to the reservation rows, and decrements
available stock by exactly the requested amount for every item; otherwise it
returns `InsufficientStock` and leaves stock and reservations unchanged (no
partial reservation). -/
theorem reserve_all_or_nothing (st : InventoryState) (oid : String)
    (items : List ReservationItem) (ttl now : Nat)
    (hnd : (items.map ReservationItem.productId).Nodup) :
    (canReserve st.stock items = true →
      (reserve st oid items ttl now).2 =
        .ok { order_id := oid, items := items, status := .active,
              expires_at := now + ttl } ∧
      (reserve st oid items ttl now).1.reservations =
        { order_id := oid, items := items, status := ResStatus.active,
          expires_at := now + ttl } :: st.reservations ∧
      ∀ it ∈ items,
        availableOf (reserve st oid items ttl now).1.stock it.productId + it.quantity =
          availableOf st.stock it.productId) ∧
    (canReserve st.stock items = false →
      reserve st oid items ttl now = (st, .error .InsufficientStock)) := by
  constructor
  · intro hcan
    have hcan' : ∀ it ∈ items, it.quantity ≤ availableOf st.stock it.productId := by
      intro it hit
      have := List.all_eq_true.mp hcan it hit
      exact of_decide_eq_true this
    refine ⟨by simp [reserve, hcan], by simp [reserve, hcan], ?_⟩
    intro it hit
    have hdec := availableOf_foldl_dec items st.stock hnd hcan' it hit
    simpa [reserve, hcan] using hdec
  · intro hcan
    simp [reserve, hcan]

/-- Witness for C1: with 5 units of SKU-A and 3 of SKU-B on hand, reserving
2 units of SKU-A and 1 of SKU-B for order O1 with the default 15-minute ttl
succeeds, leaves 3 units of SKU-A and 2 of SKU-B available, and records an
active reservation expiring at `0 + defaultTtlSeconds`. -/
theorem reserve_all_or_nothing_witness :
    canReserve invSt0.stock items0 = true ∧
    (reserve invSt0 "O1" items0 defaultTtlSeconds 0).2 =
      .ok { order_id := "O1", items := items0, status := .active,
            expires_at := 0 + defaultTtlSeconds } ∧
    availableOf (reserve invSt0 "O1" items0 defaultTtlSeconds 0).1.stock "SKU-A" = 3 ∧
    availableOf (reserve invSt0 "O1" items0 defaultTtlSeconds 0).1.stock "SKU-B" = 2 := by
  refine ⟨by decide, ?_, by decide, by decide⟩
  exact ((reserve_all_or_nothing invSt0 "O1" items0 defaultTtlSeconds 0
    (by decide)).1 (by decide)).1

/-! ## Event deduplication -/

/-- C2 — Delivering the same eventId a second time after a first successful
processing produces no additional side effect: for every consumer state and
every domain action, handling the event twice leaves the consumer's processed
set and effect log equal to handling it once. -/
theorem handleEvent_dedup_idempotent (process : List String → List String)
    (st : ConsumerState) (e : String) :
    handleEvent process (handleEvent process st e) e = handleEvent process st e := by
  by_cases h : e ∈ st.processedEvents <;> simp [handleEvent, h]

/-! ## Payment idempotency-key lemmas -/

theorem findByIdempotencyKey_append_fresh (db : List Payment) (key : String)
    (p : Payment) (h : findByIdempotencyKey db key = none)
    (hp : p.idempotency_key = key) :
    findByIdempotencyKey (db ++ [p]) key = some p := by
  induction db with
  | nil => simp [findByIdempotencyKey, hp]
  | cons q rest ih =>
    simp only [findByIdempotencyKey, List.cons_append] at *
    by_cases hq : q.idempotency_key = key
    · simp [hq] at h
    · rw [if_neg hq] at h ⊢
      exact ih h

theorem countSucceededForKey_of_fresh (db : List Payment) (key : String)
    (h : findByIdempotencyKey db key = none) :
    countSucceededForKey db key = 0 := by
  induction db with
  | nil => rfl
  | cons p rest ih =>
    simp only [findByIdempotencyKey] at h
    by_cases hp : p.idempotency_key = key
    · simp [hp] at h
    · rw [if_neg hp] at h
      simpa [countSucceededForKey, List.filter_cons, hp] using ih h

theorem countSucceededForKey_append (db l : List Payment) (key : String) :
    countSucceededForKey (db ++ l) key =
      countSucceededForKey db key + countSucceededForKey l key := by
  simp [countSucceededForKey, List.filter_append]

theorem processPayment_count_le (db : List Payment) (oid : String) (amt : Nat)
    (key : String) (charges : Nat) (k : String)
    (h : countSucceededForKey db k ≤ 1) :
    countSucceededForKey (processPayment db oid amt key charges).1 k ≤ 1 := by
  unfold processPayment
  cases hf : findByIdempotencyKey db key with
  | some p => simpa using h
  | none =>
    simp only
    rw [countSucceededForKey_append]
    by_cases hk : k = key
    · subst hk
      rw [countSucceededForKey_of_fresh db k hf]
      simp [countSucceededForKey, performPayment]
    · have hz : countSucceededForKey [performPayment oid amt key] k = 0 := by
        simp [countSucceededForKey, performPayment, Ne.symm hk]
      rw [hz]
      simpa using h

theorem runPayments_aux_le (cmds : List (String × Nat × String)) (db : List Payment)
    (n : Nat) (k : String) (h : countSucceededForKey db k ≤ 1) :
    countSucceededForKey
      (cmds.foldl
        (fun acc c =>
          let r := processPayment acc.1 c.1 c.2.1 c.2.2 acc.2
          (r.1, r.2.2))
        (db, n)).1 k ≤ 1 := by
  induction cmds generalizing db n with
  | nil => simpa using h
  | cons c rest ih =>
    simp only [List.foldl_cons]
    exact ih (processPayment db c.1 c.2.1 c.2.2 n).1
      (processPayment db c.1 c.2.1 c.2.2 n).2.2
      (processPayment_count_le db c.1 c.2.1 c.2.2 n k h)

/-- C3 — For every idempotency key and every sequence of payment commands, at
most one stored Payment Record has `success` status for that key, and
re-submitting a command with an already-used key returns the previously
stored record unchanged, leaves the database unchanged, and performs no
second gateway charge (the charge counter stays put). -/
theorem payment_idempotency_key :
    (∀ cmds k, countSucceededForKey (runPayments cmds).1 k ≤ 1) ∧
    (∀ db oid amt oid' amt' key n,
      processPayment (processPayment db oid amt key n).1 oid' amt' key
          (processPayment db oid amt key n).2.2 =
        ((processPayment db oid amt key n).1,
         (processPayment db oid amt key n).2.1,
         (processPayment db oid amt key n).2.2)) := by
  constructor
  · intro cmds k
    have hz : countSucceededForKey ([] : List Payment) k ≤ 1 := by
      simp [countSucceededForKey]
    simpa [runPayments] using runPayments_aux_le cmds [] 0 k hz
  · intro db oid amt oid' amt' key n
    cases hf : findByIdempotencyKey db key with
    | some p => simp [processPayment, hf]
    | none =>
      have hagain := findByIdempotencyKey_append_fresh db key
        (performPayment oid amt key) hf rfl
      simp [processPayment, hf, hagain]

/-! ## Payment-failure compensation -/

/-- C4 counterexample — processing the documented payment-failure flow for
order O5 from a state where its inventory is reserved sets the order status
to `failed`, not `cancelled` as the claim states
(`OrderService.onPaymentFailed` runs `updateOrderStatus(order_id, 'failed')`
and publishes `order.failed`). -/
theorem payment_failed_status_not_cancelled :
    (paymentFailedFlow sagaSt0 "O5").orderStatus = "failed" ∧
    (paymentFailedFlow sagaSt0 "O5").orderStatus ≠ "cancelled" := by
  constructor
  · rfl
  · decide

/-- C4 (amended) — when the payment-failure flow runs for an order: the order
transitions to `failed` (emitting `order.failed`), the inventory coordinator
releases the order's reservation — no active reservation remains — and emits
`inventory.released`, and if no payment record for the order had `success`
status before (the charge was declined and never stored), none has it
after. -/
theorem payment_failed_compensation (s : SagaState) (oid : String)
    (h : ∀ p ∈ s.payments, p.order_id = oid → p.status ≠ PayStatus.success) :
    (paymentFailedFlow s oid).orderStatus = "failed" ∧
    "order.failed" ∈ (paymentFailedFlow s oid).published ∧
    "inventory.released" ∈ (paymentFailedFlow s oid).published ∧
    (paymentFailedFlow s oid).inv.reservations.find? (resMatch oid) = none ∧
    ∀ p ∈ (paymentFailedFlow s oid).payments,
      p.order_id = oid → p.status ≠ PayStatus.success := by
  refine ⟨rfl, ?_, ?_, ?_, ?_⟩
  · simp [paymentFailedFlow, inventoryOnOrderFailed, orderOnPaymentFailed,
      paymentOnOrderCreatedDeclined, publishEvt, updateOrderStatus]
  · simp [paymentFailedFlow, inventoryOnOrderFailed, orderOnPaymentFailed,
      paymentOnOrderCreatedDeclined, publishEvt, updateOrderStatus]
  · show (release _ oid).reservations.find? (resMatch oid) = none
    exact find?_setStatusAll _ oid .released rfl
  · exact h

/-- Witness for C4 (amended): the flow run for order O5 from the concrete
reserved-inventory state. -/
theorem payment_failed_compensation_witness :
    (paymentFailedFlow sagaSt0 "O5").orderStatus = "failed" ∧
    "order.failed" ∈ (paymentFailedFlow sagaSt0 "O5").published ∧
    "inventory.released" ∈ (paymentFailedFlow sagaSt0 "O5").published ∧
    (paymentFailedFlow sagaSt0 "O5").inv.reservations.find? (resMatch "O5") = none ∧
    ∀ p ∈ (paymentFailedFlow sagaSt0 "O5").payments,
      p.order_id = "O5" → p.status ≠ PayStatus.success :=
  payment_failed_compensation sagaSt0 "O5" (by simp [sagaSt0])

/-! ## Retry policy -/

theorem retryFrom_failFn (e : String) (n i : Nat) :
    retryFrom (failFn e) i (n + 1) =
      (some (.error e), (List.range' i n).map backoffDelay) := by
  induction n generalizing i with
  | zero => rfl
  | succ n ih =>
    have hstep : retryFrom (failFn e) i (n + 2) =
        ((retryFrom (failFn e) (i + 1) (n + 1)).1,
         backoffDelay i :: (retryFrom (failFn e) (i + 1) (n + 1)).2) := rfl
    rw [hstep, ih (i + 1), List.range'_succ]
    simp

/-- C7 counterexample — the retry policy of the source is 3 attempts by
default with the backoff capped at 10000 ms, not 5 attempts capped at
30000 ms: running `retryWithBackoff` with the default `maxRetries` on an
always-failing handler makes exactly 3 attempts with delays 1000 ms and
2000 ms and rethrows the error (no dead-letter routing exists in
`retryWithBackoff`). -/
theorem retry_policy_counterexample :
    maxRetriesDefault ≠ 5 ∧
    backoffDelay 5 ≠ 30000 ∧
    retryWithBackoff (failFn "gateway timeout") maxRetriesDefault =
      (some (.error "gateway timeout"), [1000, 2000]) := by
  refine ⟨by decide, by decide, ?_⟩
  rfl

/-- C7 (amended) — for every failing envelope handler, the bus retries with
exponential backoff of base 1 s capped at 10 s; after N attempts
(configurable, default N = 3) the last error is rethrown to the caller rather
than swallowed: an always-failing handler run with `maxRetries = n + 1` makes
`n + 1` attempts, sleeping `min(1000 * 2^i, 10000)` ms after attempt `i`, and
returns the final error. -/
theorem retryWithBackoff_policy :
    maxRetriesDefault = 3 ∧
    backoffDelay 0 = 1000 ∧
    (∀ i, backoffDelay i = min (1000 * 2 ^ i) 10000) ∧
    (∀ n e, retryWithBackoff (failFn e) (n + 1) =
      (some (.error e), (List.range n).map backoffDelay)) := by
  refine ⟨rfl, rfl, fun i => rfl, fun n e => ?_⟩
  rw [retryWithBackoff, retryFrom_failFn, List.range_eq_range']

/-! ## Orders schema: no version column -/

/-- C6 counterexample — the `orders` table of DATABASE_SCHEMAS.md carries no
`version` column at all, so no transition can be guarded by an order's version
number and no `StaleVersion` rejection exists. -/
theorem orders_no_version_column : ¬ ("version" ∈ ordersColumns) := by decide

/-- C6 (amended) — the orders schema records the order's `status` and one
timestamp per transition (`created_at`, `updated_at`, `confirmed_at`,
`shipped_at`, `delivered_at`, `cancelled_at`) but no version column: the
documented design has no version-based optimistic concurrency control on
orders. -/
theorem orders_schema_no_version :
    "version" ∉ ordersColumns ∧
    "status" ∈ ordersColumns ∧
    "created_at" ∈ ordersColumns ∧
    "updated_at" ∈ ordersColumns ∧
    "confirmed_at" ∈ ordersColumns ∧
    "shipped_at" ∈ ordersColumns ∧
    "delivered_at" ∈ ordersColumns ∧
    "cancelled_at" ∈ ordersColumns := by decide

/-! ## Cancellation rule -/

/-- C8 counterexample — the claim lists `inventory_reserved` among the
accepted statuses, but the documented business rule accepts only `pending`
and `confirmed`; a cancellation request for an order in status
`inventory_reserved` (not even a member of the documented status set) is
rejected, leaving the order unchanged. -/
theorem cancel_inventory_reserved_rejected :
    canCancel "inventory_reserved" = false ∧
    cancelOrder { status := "inventory_reserved", cancelled_at := none } 7 =
      ({ status := "inventory_reserved", cancelled_at := none }, false) ∧
    "inventory_reserved" ∉ orderStatuses := by decide

/-- C8 (amended) — a CancelOrder request is accepted if and only if the
order's status is `pending` or `confirmed`; in every other status — in
particular `shipped` and `delivered` — it is rejected, leaving the order
unchanged. -/
theorem cancel_accepted_iff (o : COrder) (now : Nat) :
    (canCancel o.status = true ↔ (o.status = "pending" ∨ o.status = "confirmed")) ∧
    (canCancel o.status = true →
      cancelOrder o now = ({ status := "cancelled", cancelled_at := some now }, true)) ∧
    (canCancel o.status = false → cancelOrder o now = (o, false)) := by
  refine ⟨?_, ?_, ?_⟩
  · simp [canCancel]
  · intro h
    simp [cancelOrder, h]
  · intro h
    simp [cancelOrder, h]

/-- Witness for C8 (amended): a shipped order cannot be cancelled and stays
unchanged. -/
theorem cancel_accepted_iff_witness :
    (canCancel (COrder.mk "shipped" none).status = true ↔
      ((COrder.mk "shipped" none).status = "pending" ∨
       (COrder.mk "shipped" none).status = "confirmed")) ∧
    (canCancel (COrder.mk "shipped" none).status = true →
      cancelOrder (COrder.mk "shipped" none) 0 =
        ({ status := "cancelled", cancelled_at := some 0 }, true)) ∧
    (canCancel (COrder.mk "shipped" none).status = false →
      cancelOrder (COrder.mk "shipped" none) 0 = (COrder.mk "shipped" none, false)) :=
  cancel_accepted_iff (COrder.mk "shipped" none) 0

end Saga

namespace UserSvc

/-! ## Login error uniformity and response shape -/

/-- C9 counterexample — login with the registered but deactivated account
alice (and a wrong password) fails with "Account is deactivated", while login
with an unregistered email fails with "Invalid email or password": the two
failures differ, so a caller can learn from the failure that alice's email is
registered, contradicting the claim as universally stated. -/
theorem login_error_distinguishable :
    login [aliceInactive] "alice@example.com" "wrongpw" =
      .error "Account is deactivated" ∧
    login [aliceInactive] "nobody@example.com" "wrongpw" =
      .error "Invalid email or password" ∧
    ("Account is deactivated" : String) ≠ "Invalid email or password" := by
  refine ⟨rfl, rfl, by decide⟩

/-- C9 (amended) — for a login request whose email is unregistered and one
whose email belongs to a registered, *active* account but whose password is
wrong, `UserService.login` fails with the identical error message
"Invalid email or password", so those two failures are indistinguishable. -/
theorem login_uniform_error (db : List UserR) (email1 pw1 email2 pw2 : String)
    (u : UserR) (h1 : findByEmail db email1 = none)
    (h2 : findByEmail db email2 = some u) (hact : u.is_active = true)
    (hpw : comparePassword pw2 u.password_hash = false) :
    login db email1 pw1 = .error "Invalid email or password" ∧
    login db email2 pw2 = .error "Invalid email or password" := by
  constructor
  · simp [login, h1]
  · simp [login, h2, hact, hpw]

/-- Witness for C9 (amended): against a store holding only the active user
bob, an unknown email and bob's email with a wrong password produce the same
error message. -/
theorem login_uniform_error_witness :
    login [bobActive] "nobody@example.com" "x" = .error "Invalid email or password" ∧
    login [bobActive] "bob@example.com" "wrongpw" = .error "Invalid email or password" :=
  login_uniform_error [bobActive] "nobody@example.com" "x" "bob@example.com" "wrongpw"
    bobActive (by decide) (by decide) rfl (by decide)

/-- C10 — `UserResponse` (register, login, getProfile and updateProfile all
return `toUserResponse`) carries exactly the fields id, email, first_name,
last_name, phone, role, is_email_verified and created_at and never the
password hash: two stored users differing only in `password_hash` map to
equal responses. -/
theorem toUserResponse_hash_independent (u : UserR) (h : String) :
    toUserResponse { u with password_hash := h } = toUserResponse u := rfl

end UserSvc
